import Mathlib

/-!
# Verification of the PyDDA streamline-plot module

This file formalises, over a shallow embedding, the behaviour of
`pydda/vis/streamline_plot.py` and of the beam-crossing-angle (BCA)
calculator `retrieval.get_bca` that it calls.

Two developments:

* **BCA calculator** (`get_bca` and friends).  The body of
  `retrieval.get_bca` is not part of this repository snapshot (only its
  caller `streamline_plot.py` is), so the calculator is modelled from the
  specification: radar 1 sits at the planar origin, radar 2 is projected
  to planar coordinates `(x2, y2)` by an opaque caller-supplied projection
  function, and at each grid point `(gx, gy)` the crossing angle is
  `|atan2(gy, gx) - atan2(gy - y2, gx - x2)|`, folded into `[0, π]`
  (values above `π` are replaced by `2π -` the value).  Latitude
  validation and grid-shape validation are modelled per the spec's error
  design.  `atan2 y x` is embedded as `Complex.arg ⟨x, y⟩`, which has the
  standard library semantics: range `(-π, π]` and `atan2 0 0 = 0`.
  Machine floating point is abstracted to the reals, where every value is
  finite and no NaN exists.

* **Plotting layer**.  The four plotting procedures of
  `streamline_plot.py` are embedded as functions producing a trace of
  drawing commands (`PlotCmd`) inside `Except PyErr`, mirroring the
  source line by line: dictionary lookups and array indexing can raise
  (`KeyError` / `IndexError` / `ValueError`), and every call into
  matplotlib/cartopy is recorded with the arguments actually passed.
  Python floats are modelled as rationals (`math.pi` is embedded as the
  exact rational value of the IEEE-754 double nearest `π`; rounding of
  subsequent arithmetic is not modelled, which no claim depends on).
  Masked-array behaviour is not modelled: arrays are plain rational
  arrays, and `np.ma.filled` is the identity on them.
-/

/-! ## Part 1: the BCA calculator, modelled from the spec -/

/-- A 2-D array of reals (a grid-shaped field). -/
abbrev RArr2 : Type := List (List ℝ)

/-- The shape of a 2-D array: the list of its row lengths. -/
def shape (a : RArr2) : List Nat := a.map List.length

/-- Modelled from the spec: the two-argument arctangent used by the BCA
calculator (`numpy.arctan2` in the absent `retrieval.get_bca`), embedded
as the argument of the complex number `x + y·i`.  Range `(-π, π]`,
`atan2 0 0 = 0`. -/
noncomputable def atan2 (y x : ℝ) : ℝ := Complex.arg ⟨x, y⟩

/-- Modelled from the spec: the crossing angle at one grid point
`(gx, gy)`, radar 1 at the origin and radar 2 at `(x2, y2)`:
`|theta1 - theta2|`, normalized into `[0, π]` by replacing any value
above `π` with `2π` minus that value (spec §4.1, step 2-3). -/
noncomputable def bcaPoint (x2 y2 gx gy : ℝ) : ℝ :=
  let theta1 := atan2 gy gx
  let theta2 := atan2 (gy - y2) (gx - x2)
  let angle := |theta1 - theta2|
  if Real.pi < angle then 2 * Real.pi - angle else angle

/-- Modelled from the spec: the full field of crossing angles, one per
grid point (spec §4.1, step 4). -/
noncomputable def bcaField (x2 y2 : ℝ) (grid_x grid_y : RArr2) : RArr2 :=
  List.zipWith (List.zipWith (bcaPoint x2 y2)) grid_x grid_y

/-- The error outcomes of the BCA calculator (spec §7). -/
inductive BCAError : Type where
  | InvalidInputError : BCAError
  | ShapeMismatchError : BCAError
deriving DecidableEq

/-- Latitude validity: within `[-90, 90]` degrees (spec §4.1 / §7). -/
def validLat (lat : ℝ) : Prop := -90 ≤ lat ∧ lat ≤ 90

open Classical in
/-- Modelled from the spec: `retrieval.get_bca` (the calculator's body is
absent from this repository snapshot; only its caller is present).
Contract of spec §4.1 with the error design of §7: radar latitudes must
lie in `[-90, 90]` (`InvalidInputError` otherwise), `grid_x` and `grid_y`
must have the same shape (`ShapeMismatchError` otherwise); radar 2's
geographic position is projected by the opaque projection capability
`proj`, and the field of normalized crossing angles is returned.
Coordinates are reals, so every input is finite; the non-finite-input
branch of §7 has no inhabitant in this model.  Radar 1's coordinates are
taken by the caller's guarantee to align with the grid's origin and do
not enter the computation (spec §4.1, step 1). -/
noncomputable def get_bca (rad1_lon rad1_lat rad2_lon rad2_lat : ℝ)
    (grid_x grid_y : RArr2) (proj : ℝ → ℝ → ℝ × ℝ) :
    Except BCAError RArr2 :=
  if validLat rad1_lat ∧ validLat rad2_lat then
    if shape grid_x = shape grid_y then
      let p2 := proj rad2_lon rad2_lat
      Except.ok (bcaField p2.1 p2.2 grid_x grid_y)
    else Except.error BCAError.ShapeMismatchError
  else Except.error BCAError.InvalidInputError

/-! ## Part 2: the plotting layer of `streamline_plot.py`

Python values are embedded as follows: floats are rationals, numpy
arrays are nested lists of rationals (unmasked; `np.ma.filled` is the
identity), dictionaries of fields are association lists, and every
matplotlib/cartopy call is recorded as a `PlotCmd` carrying the
arguments the source passes.  Python exceptions are the error channel
of `Except PyErr`. -/

/-- A 1-D rational array. -/
abbrev Arr1 : Type := List ℚ

/-- A 2-D rational array. -/
abbrev Arr2 : Type := List Arr1

/-- A 3-D rational array (z, y, x), as pyart grids are laid out. -/
abbrev Arr3 : Type := List Arr2

/-- Python exceptions observable in `streamline_plot.py`. -/
inductive PyErr : Type where
  | KeyError (k : String) : PyErr
  | IndexError : PyErr
  | ValueError : PyErr
deriving DecidableEq

deriving instance DecidableEq for Except

/-- One entry of a pyart `fields` dictionary: the `'data'` array and its
metadata.  `'data'`, `'long_name'` and `'units'` are always present on a
pyart field; `'min_bca'`/`'max_bca'` are extra keys that PyDDA's
retrieval attaches and may be absent (`none`). -/
structure PyField : Type where
  data : Arr3
  long_name : String
  units : String
  min_bca : Option ℚ
  max_bca : Option ℚ

/-- The slice of a Py-ART `Grid` object read by `streamline_plot.py`.
`radar_longitude`/`radar_latitude` stand for the scalar payload of the
corresponding `{'data': ...}` dictionaries; `projparams` is the opaque
projection-parameter dictionary returned by `get_projparams()`. -/
structure PyGrid : Type where
  fields : List (String × PyField)
  point_altitude : Arr3
  point_x : Arr3
  point_y : Arr3
  point_latitude : Arr3
  point_longitude : Arr3
  radar_longitude : ℚ
  radar_latitude : ℚ
  projparams : List (String × ℚ)

/-- Python dictionary lookup: `d[k]`, raising `KeyError` when absent. -/
def dictGet (d : List (String × PyField)) (k : String) :
    Except PyErr PyField :=
  match d.find? (fun p => p.1 == k) with
  | some p => Except.ok p.2
  | none => Except.error (PyErr.KeyError k)

/-- Python list/array indexing `l[i]` with negative-index wraparound,
raising `IndexError` out of range. -/
def pyGet {α : Type} (l : List α) (i : ℤ) : Except PyErr α :=
  let j := if i < 0 then i + l.length else i
  if 0 ≤ j then
    match l.get? j.toNat with
    | some a => Except.ok a
    | none => Except.error PyErr.IndexError
  else Except.error PyErr.IndexError

/-- Scalar triple indexing `a[i, j, k]`. -/
def at3 (a : Arr3) (i j k : ℤ) : Except PyErr ℚ := do
  let p ← pyGet a i
  let r ← pyGet p j
  pyGet r k

/-- Slice `a[:, j, :]`. -/
def sl1 (a : Arr3) (j : ℤ) : Except PyErr Arr2 :=
  a.mapM (fun p => pyGet p j)

/-- Slice `a[:, :, k]`. -/
def sl2 (a : Arr3) (k : ℤ) : Except PyErr Arr2 :=
  a.mapM (fun p => p.mapM (fun r => pyGet r k))

/-- Elementwise division of a 3-D array by a scalar (`a / 1e3`). -/
def divA3 (a : Arr3) (c : ℚ) : Arr3 :=
  a.map (fun p => p.map (fun r => r.map (fun q => q / c)))

/-- Elementwise square (`a ** 2`). -/
def sqA3 (a : Arr3) : Arr3 :=
  a.map (fun p => p.map (fun r => r.map (fun q => q * q)))

/-- Elementwise sum of two 3-D arrays. -/
def addA3 (a b : Arr3) : Arr3 :=
  List.zipWith (List.zipWith (List.zipWith (fun x y => x + y))) a b

/-- Embeds `np.diff(a, axis=2)`: adjacent differences along the innermost
axis. -/
def diffAx2 (a : Arr3) : Arr3 :=
  a.map (fun p => p.map (fun r => List.zipWith (fun x y => x - y) r.tail r))

/-- Embeds `np.diff(a, axis=1)`: adjacent differences along the middle axis. -/
def diffAx1 (a : Arr3) : Arr3 :=
  a.map (fun p => List.zipWith (List.zipWith (fun x y => x - y)) p.tail p)

/-- Embeds `a.min()` over a 2-D array; `ValueError` on an empty array, as numpy
raises on zero-size reductions. -/
def amin2 (a : Arr2) : Except PyErr ℚ :=
  match a.flatten with
  | [] => Except.error PyErr.ValueError
  | x :: xs => Except.ok (xs.foldl min x)

/-- Embeds `a.max()` over a 2-D array. -/
def amax2 (a : Arr2) : Except PyErr ℚ :=
  match a.flatten with
  | [] => Except.error PyErr.ValueError
  | x :: xs => Except.ok (xs.foldl max x)

/-- Embeds `a.min()` over a 3-D array. -/
def amin3 (a : Arr3) : Except PyErr ℚ := amin2 a.flatten

/-- Embeds `a.max()` over a 3-D array. -/
def amax3 (a : Arr3) : Except PyErr ℚ := amax2 a.flatten

/-- Embeds `np.ma.filled(a, fill_value)`: the identity here, because arrays are
modelled unmasked (numpy's `filled` returns plain arrays unchanged). -/
def maFilled (a : Arr2) (fill : ℚ) : Arr2 := a

/-- Embeds `.filled(np.nan)` on a 3-D field: identity for unmasked arrays (the
fill value, a NaN, is immaterial and not representable in `ℚ`). -/
def maFilled3 (a : Arr3) : Arr3 := a

/-- Embeds `np.ma.stack(...).max(axis=0)`: elementwise maximum of a list of
3-D arrays; `ValueError` on an empty stack. -/
def stackMax (l : List Arr3) : Except PyErr Arr3 :=
  match l with
  | [] => Except.error PyErr.ValueError
  | x :: xs =>
    Except.ok (xs.foldl
      (fun acc b => List.zipWith (List.zipWith (List.zipWith max)) acc b) x)

/-- Embeds `np.linspace(lo, hi, n)`. -/
def linspace (lo hi : ℚ) (n : ℕ) : List ℚ :=
  (List.range n).map (fun i => lo + (hi - lo) * i / ((n : ℚ) - 1))

/-- Embeds `np.round(q, 1)` (half-integer ties, which numpy rounds to even and
`round` rounds up, do not occur in any statement below). -/
def round1 (q : ℚ) : ℚ := (round (q * 10) : ℤ) / 10

/-- The exact rational value of the IEEE-754 double `math.pi`. -/
def piFloat : ℚ := 884279719003555 / 281474976710656

/-- Embeds `math.radians(d)`: degrees to radians with the double-precision
`math.pi` (rounding of the product is not modelled). -/
def radians (d : ℚ) : ℚ := d * (piFloat / 180)

/-- One recorded drawing call, with the arguments the source passes.
Optional arguments a call site does not pass are `none`. -/
inductive PlotCmd : Type where
  | pcolormesh (x y c : Arr2) (cmap : String) (transform : Option String)
      (zorder : Option ℕ) : PlotCmd
  | streamplot (x y u v : Arr2) (color : String) (cmap : Option String)
      (transform : Option String) (zorder : Option ℕ)
      (linewidth : Option ℚ) : PlotCmd
  | colorbar (label : String) : PlotCmd
  | contour (x y d : Arr2) (levels : Option (List ℚ))
      (linewidths : Option ℚ) (alpha : Option ℚ) (zorder : Option ℕ)
      (color : Option String) : PlotCmd
  | clabel : PlotCmd
  | xlabel (s : String) : PlotCmd
  | ylabel (s : String) : PlotCmd
  | title (pre : String) (v : ℚ) (post : String) : PlotCmd
  | xlim (lo hi : ℚ) : PlotCmd
  | ylim (lo hi : ℚ) : PlotCmd
  | coastlines (resolution : String) : PlotCmd
  | gridlines : PlotCmd
  | extent (x0 x1 y0 y1 : ℚ) : PlotCmd
  | xticks (t : List ℚ) : PlotCmd
  | yticks (t : List ℚ) : PlotCmd
deriving DecidableEq

/-- Embeds `if(x is None): x = d` — the vmin/vmax defaulting pattern. -/
def pyDefault (o : Option ℚ) (d : Except PyErr ℚ) : Except PyErr ℚ :=
  match o with
  | none => d
  | some q => Except.ok q

/-- Lookup of an optional metadata key (`fields[u_field]['min_bca']`),
raising `KeyError` when the key is absent. -/
def metaGet (o : Option ℚ) (k : String) : Except PyErr ℚ :=
  match o with
  | some q => Except.ok q
  | none => Except.error (PyErr.KeyError k)

/-- The `if(colorbar_flag is True)` block: refetches the background
field's metadata and emits the colorbar (the source's
`cp.replace(' ', '_')` discards its result and is not recorded). -/
def colorbarBlock (flag : Bool) (Grids : List PyGrid) (bg_grid_no : ℤ)
    (background_field : String) : Except PyErr (List PlotCmd) :=
  if flag then do
    let fb ← dictGet (← pyGet Grids bg_grid_no).fields background_field
    pure [PlotCmd.colorbar (fb.long_name ++ " [" ++ fb.units ++ "]")]
  else pure []

/-- The `if(w_vel_contours is not None)` block of the two horizontal
functions: slices `w[level, :, :]`, fills, contours at
`w_vel_contours`. -/
def wContourBlock (w_vel_contours : Option (List ℚ)) (w : Arr3)
    (level : ℤ) (X Y : Arr2) (contour_alpha : ℚ) (zorder : Option ℕ) :
    Except PyErr (List PlotCmd) :=
  match w_vel_contours with
  | some lw => do
    let wL ← pyGet w level
    pure [PlotCmd.contour X Y (maFilled wL 0) (some lw) (some 2)
      (some contour_alpha) zorder none, PlotCmd.clabel]
  | none => pure []

/-- One iteration of the dual-Doppler lobes double loop: for `i ≠ j`,
call the external `retrieval.get_bca` on radars `j` and `i` and contour
the result at `[bca_min, bca_max]`. -/
def lobesStep
    (getBca : ℚ → ℚ → ℚ → ℚ → Arr2 → Arr2 → List (String × ℚ) → Arr2)
    (Grids : List PyGrid) (X Y : Arr2) (bca_min bca_max : ℚ)
    (zorder : Option ℕ) (acc : List PlotCmd) (ij : ℕ × ℕ) :
    Except PyErr (List PlotCmd) :=
  if ij.1 ≠ ij.2 then do
    let gi ← pyGet Grids (ij.1 : ℤ)
    let gj ← pyGet Grids (ij.2 : ℤ)
    let px ← pyGet gj.point_x 0
    let py ← pyGet gj.point_y 0
    pure (acc ++ [PlotCmd.contour X Y
      (getBca gj.radar_longitude gj.radar_latitude gi.radar_longitude
        gi.radar_latitude px py gj.projparams)
      (some [bca_min, bca_max]) none none zorder (some "k")])
  else pure acc

/-- The `if(show_lobes is True)` double loop over all ordered radar
pairs, emitting its contour commands in loop order. -/
def lobesBlock (show_lobes : Bool)
    (getBca : ℚ → ℚ → ℚ → ℚ → Arr2 → Arr2 → List (String × ℚ) → Arr2)
    (Grids : List PyGrid) (X Y : Arr2) (bca_min bca_max : ℚ)
    (zorder : Option ℕ) : Except PyErr (List PlotCmd) :=
  if show_lobes then
    ((List.range Grids.length).flatMap
      (fun i => (List.range Grids.length).map (fun j => (i, j)))).foldlM
      (lobesStep getBca Grids X Y bca_min bca_max zorder) []
  else pure []

/-- The `if(title_flag is True)` block of the two horizontal functions:
reads `grid_h[level, 0, 0]` for the title. -/
def titleBlockH (flag : Bool) (grid_h : Arr3) (level : ℤ) :
    Except PyErr (List PlotCmd) :=
  if flag then do
    let hv ← at3 grid_h level 0 0
    pure [PlotCmd.title "PyDDA retreived winds @" hv " km"]
  else pure []

/-- The title block of `plot_xz_xsection_streamlines`: branches on the
sign of `grid_y[0, level, 0]`. -/
def titleBlockXZ (flag : Bool) (grid_y : Arr3) (level : ℤ) :
    Except PyErr (List PlotCmd) :=
  if flag then do
    let ty ← at3 grid_y 0 level 0
    pure [if ty > 0 then
        PlotCmd.title "PyDDA retreived winds @" ty " km north of origin."
      else
        PlotCmd.title "PyDDA retreived winds @" (-ty) " km south of origin."]
  else pure []

/-- The title block of `plot_yz_xsection_streamlines`: the source tests
`grid_x[0, 0, level]` but prints `grid_x[0, level, 0]`; mirrored
as-is. -/
def titleBlockYZ (flag : Bool) (grid_x : Arr3) (level : ℤ) :
    Except PyErr (List PlotCmd) :=
  if flag then do
    let tc ← at3 grid_x 0 0 level
    let tv ← at3 grid_x 0 level 0
    pure [if tc > 0 then
        PlotCmd.title "PyDDA retreived winds @" tv " km east of origin."
      else
        PlotCmd.title "PyDDA retreived winds @" (-tv) " km west of origin."]
  else pure []

/-- The background-field selection of the map function:
`Grids[bg_grid_no]` when `bg_grid_no > -1`, elementwise maximum over all
grids otherwise. -/
def bgField (Grids : List PyGrid) (bg_grid_no : ℤ)
    (background_field : String) : Except PyErr Arr3 :=
  if bg_grid_no > -1 then do
    pure (← dictGet (← pyGet Grids bg_grid_no).fields background_field).data
  else do
    let arrs ← Grids.mapM (fun g => dictGet g.fields background_field)
    stackMax (arrs.map PyField.data)

/-- Embeds `plot_horiz_xsection_streamlines` (source lines 11-162) as the trace
of drawing commands it issues.  `getBca` stands for the external
`retrieval.get_bca` collaborator (whose body is absent from the
snapshot); `ax`/`plt.gca()` handling carries no data and is not
recorded.  Source defaults: `background_field='reflectivity'`,
`level=1`, `cmap='pyart_LangRainbow12'`, contours `None`, fields
`'u'/'v'/'w'`, flags `True`, `bg_grid_no=0`, `thickness_divisor=7.0`,
`contour_alpha=0.7`. -/
def plot_horiz_xsection_streamlines
    (getBca : ℚ → ℚ → ℚ → ℚ → Arr2 → Arr2 → List (String × ℚ) → Arr2)
    (Grids : List PyGrid) (background_field : String) (level : ℤ)
    (cmap : String) (vmin vmax : Option ℚ)
    (u_vel_contours v_vel_contours w_vel_contours : Option (List ℚ))
    (u_field v_field w_field : String)
    (show_lobes title_flag axes_labels_flag colorbar_flag : Bool)
    (bg_grid_no : ℤ) (thickness_divisor contour_alpha : ℚ) :
    Except PyErr (List PlotCmd) := do
  let fbg ← dictGet (← pyGet Grids bg_grid_no).fields background_field
  let grid_bg := fbg.data
  let vmin ← pyDefault vmin (amin3 grid_bg)
  let vmax ← pyDefault vmax (amax3 grid_bg)
  let g0 ← pyGet Grids 0
  let grid_h := divA3 g0.point_altitude 1000
  let grid_x := divA3 g0.point_x 1000
  let grid_y := divA3 g0.point_y 1000
  let dx ← at3 (diffAx2 grid_x) 0 0 0
  let dy ← at3 (diffAx1 grid_y) 0 0 0
  let fu ← dictGet g0.fields u_field
  let u := fu.data
  let fv ← dictGet g0.fields v_field
  let v := fv.data
  let fw ← dictGet g0.fields w_field
  let w := fw.data
  let meshX ← pyGet grid_x level
  let meshY ← pyGet grid_y level
  let meshC ← pyGet grid_bg level
  let cmds := [PlotCmd.pcolormesh meshX meshY meshC cmap none none]
  -- horiz_wind_speed = np.ma.sqrt(u**2 + v**2) is a dead value; the sum
  -- of squares is kept, its square root (irrational) is not taken
  let horiz_wind_speed := addA3 (sqA3 u) (sqA3 v)
  let uL ← pyGet u level
  let vL ← pyGet v level
  let cmds := cmds ++
    [PlotCmd.streamplot meshX meshY uL vL "k" none none none none]
  let cbCmds ← colorbarBlock colorbar_flag Grids bg_grid_no background_field
  let cmds := cmds ++ cbCmds
  let cmds := cmds ++ (match u_vel_contours with
    | some lv =>
      [PlotCmd.contour meshX meshY (maFilled uL 0) (some lv) (some 2)
        (some contour_alpha) none none, PlotCmd.clabel]
    | none => [])
  -- the v block passes levels=u_vel_contours in the source (claim C8)
  let cmds := cmds ++ (match v_vel_contours with
    | some _lv =>
      [PlotCmd.contour meshX meshY (maFilled vL 0) u_vel_contours (some 2)
        (some contour_alpha) none none, PlotCmd.clabel]
    | none => [])
  let wCmds ← wContourBlock w_vel_contours w level meshX meshY contour_alpha
    none
  let cmds := cmds ++ wCmds
  let fu2 ← dictGet g0.fields u_field
  let mbq ← metaGet fu2.min_bca "min_bca"
  let bca_min := radians mbq
  let mxq ← metaGet fu2.max_bca "max_bca"
  let bca_max := radians mxq
  let lobeCmds ← lobesBlock show_lobes getBca Grids meshX meshY bca_min
    bca_max none
  let cmds := cmds ++ lobeCmds
  let cmds := cmds ++ (if axes_labels_flag then
      [PlotCmd.xlabel "X [km]", PlotCmd.ylabel "Y [km]"]
    else [])
  let tCmds ← titleBlockH title_flag grid_h level
  let cmds := cmds ++ tCmds
  let xlo ← amin3 grid_x
  let xhi ← amax3 grid_x
  let ylo ← amin3 grid_y
  let yhi ← amax3 grid_y
  pure (cmds ++ [PlotCmd.xlim xlo xhi, PlotCmd.ylim ylo yhi])

/-- Embeds `plot_horiz_xsection_streamlines_map` (source lines 165-345).  Same
conventions as `plot_horiz_xsection_streamlines`; the PlateCarree
transform is recorded as the string `"PlateCarree"`. -/
def plot_horiz_xsection_streamlines_map
    (getBca : ℚ → ℚ → ℚ → ℚ → Arr2 → Arr2 → List (String × ℚ) → Arr2)
    (Grids : List PyGrid) (background_field : String) (level : ℤ)
    (cmap : String) (vmin vmax : Option ℚ)
    (u_vel_contours v_vel_contours w_vel_contours : Option (List ℚ))
    (u_field v_field w_field : String)
    (show_lobes title_flag axes_labels_flag colorbar_flag : Bool)
    (bg_grid_no : ℤ) (contour_alpha : ℚ) (coastlines gridlines : Bool) :
    Except PyErr (List PlotCmd) := do
  let grid_bg ← bgField Grids bg_grid_no background_field
  let vmin ← pyDefault vmin (amin3 grid_bg)
  let vmax ← pyDefault vmax (amax3 grid_bg)
  let g0 ← pyGet Grids 0
  let grid_h := divA3 g0.point_altitude 1000
  let grid_x := divA3 g0.point_x 1000
  let grid_y := divA3 g0.point_y 1000
  let grid_lat ← pyGet g0.point_latitude level
  let grid_lon ← pyGet g0.point_longitude level
  let dx ← at3 (diffAx2 grid_x) 0 0 0
  let dy ← at3 (diffAx1 grid_y) 0 0 0
  let fu ← dictGet g0.fields u_field
  let u := maFilled3 fu.data
  let fv ← dictGet g0.fields v_field
  let v := maFilled3 fv.data
  let fw ← dictGet g0.fields w_field
  let w := maFilled3 fw.data
  let meshC ← pyGet grid_bg level
  let cmds := [PlotCmd.pcolormesh grid_lon grid_lat meshC cmap
    (some "PlateCarree") (some 0)]
  let horiz_wind_speed := addA3 (sqA3 u) (sqA3 v)
  let uL ← pyGet u level
  let vL ← pyGet v level
  let cmds := cmds ++ [PlotCmd.streamplot grid_lon grid_lat uL vL "k" none
    (some "PlateCarree") (some 1) (some 2)]
  let cbCmds ← colorbarBlock colorbar_flag Grids bg_grid_no background_field
  let cmds := cmds ++ cbCmds
  let cmds := cmds ++ (match u_vel_contours with
    | some lv =>
      [PlotCmd.contour grid_lon grid_lat (maFilled uL 0) (some lv) (some 2)
        (some contour_alpha) (some 2) none, PlotCmd.clabel]
    | none => [])
  -- the v block passes levels=u_vel_contours in the source (claim C8)
  let cmds := cmds ++ (match v_vel_contours with
    | some _lv =>
      [PlotCmd.contour grid_lon grid_lat (maFilled vL 0) u_vel_contours
        (some 2) (some contour_alpha) (some 2) none, PlotCmd.clabel]
    | none => [])
  let wCmds ← wContourBlock w_vel_contours w level grid_lon grid_lat
    contour_alpha (some 2)
  let cmds := cmds ++ wCmds
  let fu2 ← dictGet g0.fields u_field
  let mbq ← metaGet fu2.min_bca "min_bca"
  let bca_min := radians mbq
  let mxq ← metaGet fu2.max_bca "max_bca"
  let bca_max := radians mxq
  let lobeCmds ← lobesBlock show_lobes getBca Grids grid_lon grid_lat
    bca_min bca_max (some 1)
  let cmds := cmds ++ lobeCmds
  let cmds := cmds ++ (if axes_labels_flag then
      [PlotCmd.xlabel "Latitude [$\\degree$]",
        PlotCmd.ylabel "Longitude [$\\degree$]"]
    else [])
  let tCmds ← titleBlockH title_flag grid_h level
  let cmds := cmds ++ tCmds
  let cmds := cmds ++ (if coastlines then [PlotCmd.coastlines "10m"] else [])
  let cmds := cmds ++ (if gridlines then [PlotCmd.gridlines] else [])
  let lonlo ← amin2 grid_lon
  let lonhi ← amax2 grid_lon
  let latlo ← amin2 grid_lat
  let lathi ← amax2 grid_lat
  pure (cmds ++ [PlotCmd.extent lonlo lonhi latlo lathi,
    PlotCmd.xticks ((linspace lonlo lonhi 6).map round1),
    PlotCmd.yticks ((linspace latlo lathi 6).map round1)])

/-- Embeds `plot_xz_xsection_streamlines` (source lines 348-484).  Note the
source's v-contour block contours `w[:, level, :]` (not `v`) at
`v_vel_contours` levels; this is mirrored as-is. -/
def plot_xz_xsection_streamlines
    (Grids : List PyGrid) (background_field : String) (level : ℤ)
    (cmap : String) (vmin vmax : Option ℚ)
    (u_vel_contours v_vel_contours w_vel_contours : Option (List ℚ))
    (u_field v_field w_field : String)
    (title_flag axes_labels_flag colorbar_flag : Bool)
    (bg_grid_no : ℤ) (thickness_divisor contour_alpha : ℚ) :
    Except PyErr (List PlotCmd) := do
  let fbg ← dictGet (← pyGet Grids bg_grid_no).fields background_field
  let grid_bg := fbg.data
  let vmin ← pyDefault vmin (amin3 grid_bg)
  let vmax ← pyDefault vmax (amax3 grid_bg)
  let g0 ← pyGet Grids 0
  let grid_h := divA3 g0.point_altitude 1000
  let grid_x := divA3 g0.point_x 1000
  let grid_y := divA3 g0.point_y 1000
  let dx ← at3 (diffAx2 grid_x) 0 0 0
  let dz ← at3 (diffAx1 grid_y) 0 0 0
  let fu ← dictGet g0.fields u_field
  let u := fu.data
  let fv ← dictGet g0.fields v_field
  let v := fv.data
  let fw ← dictGet g0.fields w_field
  let w := fw.data
  let meshX ← sl1 grid_x level
  let meshH ← sl1 grid_h level
  let meshC ← sl1 grid_bg level
  let cmds := [PlotCmd.pcolormesh meshX meshH meshC cmap none none]
  let horiz_wind_speed := addA3 (sqA3 u) (sqA3 w)
  let uL ← sl1 u level
  let wL ← sl1 w level
  let cmds := cmds ++
    [PlotCmd.streamplot meshX meshH uL wL "k" none none none none]
  let cbCmds ← colorbarBlock colorbar_flag Grids bg_grid_no background_field
  let cmds := cmds ++ cbCmds
  let cmds := cmds ++ (match u_vel_contours with
    | some lv =>
      [PlotCmd.contour meshX meshH (maFilled uL 0) (some lv) (some 2)
        (some contour_alpha) none none, PlotCmd.clabel]
    | none => [])
  -- the source's v block fills w[:, level, :] here, at v_vel_contours
  let cmds := cmds ++ (match v_vel_contours with
    | some lv =>
      [PlotCmd.contour meshX meshH (maFilled wL 0) (some lv) (some 2)
        (some contour_alpha) none none, PlotCmd.clabel]
    | none => [])
  let cmds := cmds ++ (match w_vel_contours with
    | some lw =>
      [PlotCmd.contour meshX meshH (maFilled wL 0) (some lw) (some 2)
        (some contour_alpha) none none, PlotCmd.clabel]
    | none => [])
  let cmds := cmds ++ (if axes_labels_flag then
      [PlotCmd.xlabel "X [km]", PlotCmd.ylabel "Z [km]"]
    else [])
  let tCmds ← titleBlockXZ title_flag grid_y level
  let cmds := cmds ++ tCmds
  let xlo ← amin3 grid_x
  let xhi ← amax3 grid_x
  let hlo ← amin3 grid_h
  let hhi ← amax3 grid_h
  pure (cmds ++ [PlotCmd.xlim xlo xhi, PlotCmd.ylim hlo hhi])

/-- Embeds `plot_yz_xsection_streamlines` (source lines 487-622).  Note the
source's v-contour block uses `levels=w_vel_contours`; mirrored
as-is. -/
def plot_yz_xsection_streamlines
    (Grids : List PyGrid) (background_field : String) (level : ℤ)
    (cmap : String) (vmin vmax : Option ℚ)
    (u_vel_contours v_vel_contours w_vel_contours : Option (List ℚ))
    (u_field v_field w_field : String)
    (title_flag axes_labels_flag colorbar_flag : Bool)
    (bg_grid_no : ℤ) (thickness_divisor contour_alpha : ℚ) :
    Except PyErr (List PlotCmd) := do
  let fbg ← dictGet (← pyGet Grids bg_grid_no).fields background_field
  let grid_bg := fbg.data
  let vmin ← pyDefault vmin (amin3 grid_bg)
  let vmax ← pyDefault vmax (amax3 grid_bg)
  let g0 ← pyGet Grids 0
  let grid_h := divA3 g0.point_altitude 1000
  let grid_x := divA3 g0.point_x 1000
  let grid_y := divA3 g0.point_y 1000
  let dx ← at3 (diffAx2 grid_x) 0 0 0
  let dz ← at3 (diffAx1 grid_y) 0 0 0
  let fu ← dictGet g0.fields u_field
  let u := fu.data
  let fv ← dictGet g0.fields v_field
  let v := fv.data
  let fw ← dictGet g0.fields w_field
  let w := fw.data
  let meshY ← sl2 grid_y level
  let meshH ← sl2 grid_h level
  let meshC ← sl2 grid_bg level
  let cmds := [PlotCmd.pcolormesh meshY meshH meshC cmap none none]
  let horiz_wind_speed := addA3 (sqA3 v) (sqA3 w)
  let vL ← sl2 v level
  let wL ← sl2 w level
  let cmds := cmds ++
    [PlotCmd.streamplot meshY meshH vL wL "k" (some "coolwarm") none none
      none]
  let cbCmds ← colorbarBlock colorbar_flag Grids bg_grid_no background_field
  let cmds := cmds ++ cbCmds
  let uCmds ← (match u_vel_contours with
    | some lv => do
      let uL ← sl2 u level
      pure [PlotCmd.contour meshY meshH (maFilled uL 0) (some lv) (some 2)
        (some contour_alpha) none none, PlotCmd.clabel]
    | none => pure ([] : List PlotCmd))
  let cmds := cmds ++ uCmds
  -- the source's v block passes levels=w_vel_contours here
  let cmds := cmds ++ (match v_vel_contours with
    | some _lv =>
      [PlotCmd.contour meshY meshH (maFilled vL 0) w_vel_contours (some 2)
        (some contour_alpha) none none, PlotCmd.clabel]
    | none => [])
  let cmds := cmds ++ (match w_vel_contours with
    | some lw =>
      [PlotCmd.contour meshY meshH (maFilled wL 0) (some lw) (some 2)
        (some contour_alpha) none none, PlotCmd.clabel]
    | none => [])
  let cmds := cmds ++ (if axes_labels_flag then
      [PlotCmd.xlabel "Y [km]", PlotCmd.ylabel "Z [km]"]
    else [])
  let tCmds ← titleBlockYZ title_flag grid_x level
  let cmds := cmds ++ tCmds
  let ylo ← amin3 grid_y
  let yhi ← amax3 grid_y
  let hlo ← amin3 grid_h
  let hhi ← amax3 grid_h
  pure (cmds ++ [PlotCmd.xlim ylo yhi, PlotCmd.ylim hlo hhi])

/-! ### Concrete data for witnesses -/

/-- A small concrete grid: one vertical level, 2×2 points, four fields
(`min_bca`/`max_bca` present on `"u"`). -/
def gW : PyGrid :=
  { fields := [("bg", ⟨[[[5, 6], [7, 8]]], "BG", "dBZ", none, none⟩),
               ("u", ⟨[[[1, 1], [1, 1]]], "U", "m/s", some 20, some 160⟩),
               ("v", ⟨[[[2, 2], [2, 2]]], "V", "m/s", none, none⟩),
               ("w", ⟨[[[3, 3], [3, 3]]], "W", "m/s", none, none⟩)],
    point_altitude := [[[0, 0], [0, 0]]],
    point_x := [[[0, 1000], [0, 1000]]],
    point_y := [[[0, 0], [2000, 2000]]],
    point_latitude := [[[10, 10], [11, 11]]],
    point_longitude := [[[20, 21], [20, 21]]],
    radar_longitude := 20,
    radar_latitude := 10,
    projparams := [] }

/-- Variant of `gW` with the `'min_bca'` metadata key missing from the `"u"`
field. -/
def gW9 : PyGrid :=
  { gW with
    fields := [("bg", ⟨[[[5, 6], [7, 8]]], "BG", "dBZ", none, none⟩),
               ("u", ⟨[[[1, 1], [1, 1]]], "U", "m/s", none, none⟩),
               ("v", ⟨[[[2, 2], [2, 2]]], "V", "m/s", none, none⟩),
               ("w", ⟨[[[3, 3], [3, 3]]], "W", "m/s", none, none⟩)] }

/-- A stand-in for the external `retrieval.get_bca` collaborator. -/
def getBcaW : ℚ → ℚ → ℚ → ℚ → Arr2 → Arr2 → List (String × ℚ) → Arr2 :=
  fun _ _ _ _ _ _ _ => []

/-- The trace of `plot_horiz_xsection_streamlines` on `gW` with only the
v-velocity contours requested. -/
def trF1 : List PlotCmd :=
  [PlotCmd.pcolormesh [[0, 1], [0, 1]] [[0, 0], [2, 2]] [[5, 6], [7, 8]]
    "c" none none,
   PlotCmd.streamplot [[0, 1], [0, 1]] [[0, 0], [2, 2]] [[1, 1], [1, 1]]
    [[2, 2], [2, 2]] "k" none none none none,
   PlotCmd.contour [[0, 1], [0, 1]] [[0, 0], [2, 2]] [[2, 2], [2, 2]]
    none (some 2) (some (1/2)) none none,
   PlotCmd.clabel,
   PlotCmd.xlim 0 1,
   PlotCmd.ylim 0 2]

/-- The trace of `plot_horiz_xsection_streamlines_map` on `gW` with only
the v-velocity contours requested. -/
def trMap : List PlotCmd :=
  [PlotCmd.pcolormesh [[20, 21], [20, 21]] [[10, 10], [11, 11]]
    [[5, 6], [7, 8]] "c" (some "PlateCarree") (some 0),
   PlotCmd.streamplot [[20, 21], [20, 21]] [[10, 10], [11, 11]]
    [[1, 1], [1, 1]] [[2, 2], [2, 2]] "k" none (some "PlateCarree")
    (some 1) (some 2),
   PlotCmd.contour [[20, 21], [20, 21]] [[10, 10], [11, 11]]
    [[2, 2], [2, 2]] none (some 2) (some (1/2)) (some 2) none,
   PlotCmd.clabel,
   PlotCmd.extent 20 21 10 11,
   PlotCmd.xticks [20, 101/5, 102/5, 103/5, 104/5, 21],
   PlotCmd.yticks [10, 51/5, 52/5, 53/5, 54/5, 11]]

/-- The trace of `plot_horiz_xsection_streamlines` on `gW` with no
contours requested. -/
def trF1p : List PlotCmd :=
  [PlotCmd.pcolormesh [[0, 1], [0, 1]] [[0, 0], [2, 2]] [[5, 6], [7, 8]]
    "c" none none,
   PlotCmd.streamplot [[0, 1], [0, 1]] [[0, 0], [2, 2]] [[1, 1], [1, 1]]
    [[2, 2], [2, 2]] "k" none none none none,
   PlotCmd.xlim 0 1,
   PlotCmd.ylim 0 2]

/-- The trace of `plot_horiz_xsection_streamlines_map` on `gW` with no
contours requested. -/
def trMapP : List PlotCmd :=
  [PlotCmd.pcolormesh [[20, 21], [20, 21]] [[10, 10], [11, 11]]
    [[5, 6], [7, 8]] "c" (some "PlateCarree") (some 0),
   PlotCmd.streamplot [[20, 21], [20, 21]] [[10, 10], [11, 11]]
    [[1, 1], [1, 1]] [[2, 2], [2, 2]] "k" none (some "PlateCarree")
    (some 1) (some 2),
   PlotCmd.extent 20 21 10 11,
   PlotCmd.xticks [20, 101/5, 102/5, 103/5, 104/5, 21],
   PlotCmd.yticks [10, 51/5, 52/5, 53/5, 54/5, 11]]

/-- The trace of `plot_xz_xsection_streamlines` on `gW`. -/
def trXZ : List PlotCmd :=
  [PlotCmd.pcolormesh [[0, 1]] [[0, 0]] [[5, 6]] "c" none none,
   PlotCmd.streamplot [[0, 1]] [[0, 0]] [[1, 1]] [[3, 3]] "k" none none
    none none,
   PlotCmd.xlim 0 1,
   PlotCmd.ylim 0 0]

/-- The trace of `plot_yz_xsection_streamlines` on `gW`. -/
def trYZ : List PlotCmd :=
  [PlotCmd.pcolormesh [[0, 2]] [[0, 0]] [[5, 7]] "c" none none,
   PlotCmd.streamplot [[0, 2]] [[0, 0]] [[2, 2]] [[3, 3]] "k"
    (some "coolwarm") none none none,
   PlotCmd.xlim 0 2,
   PlotCmd.ylim 0 0]

/-! ### Helper lemmas for symbolic execution of `Except` programs -/

/-- Inversion of a successful `Except` bind. -/
theorem exbind_ok {ε α β : Type} {x : Except ε α} {f : α → Except ε β}
    {b : β} (h : x >>= f = Except.ok b) :
    ∃ a, x = Except.ok a ∧ f a = Except.ok b := by
  cases x with
  | error e =>
    have he : (Except.error e : Except ε α) >>= f = Except.error e := rfl
    rw [he] at h
    exact absurd h (by simp)
  | ok a =>
    have ho : (Except.ok a : Except ε α) >>= f = f a := rfl
    rw [ho] at h
    exact ⟨a, rfl, h⟩

/-- Inversion of a successful `Except` pure. -/
theorem expure_ok {ε α : Type} {a b : α}
    (h : (pure a : Except ε α) = Except.ok b) : a = b := Except.ok.inj h

/-! ### Helper lemmas about `bcaPoint` and `bcaField` -/

/-- Every element of a `zipWith` image is the image of elements. -/
theorem mem_zipWith {α β γ : Type} {f : α → β → γ} :
    ∀ {as : List α} {bs : List β} {c : γ},
      c ∈ List.zipWith f as bs → ∃ a b, c = f a b
  | [], _, _, h => by simp [List.zipWith] at h
  | _ :: _, [], _, h => by simp [List.zipWith] at h
  | a :: as, b :: bs, c, h => by
    rcases List.mem_cons.mp h with h | h
    · exact ⟨a, b, h⟩
    · exact mem_zipWith h

/-- The shape of the BCA field equals the shape of `grid_x` when the two
input grids have equal shape. -/
theorem shape_bcaField (x2 y2 : ℝ) :
    ∀ (gx gy : RArr2), shape gx = shape gy →
      shape (bcaField x2 y2 gx gy) = shape gx
  | [], _, _ => rfl
  | _ :: _, [], h => by simp [shape] at h
  | rx :: gx, ry :: gy, h => by
    simp only [shape, List.map_cons, List.cons.injEq] at h
    have ih := shape_bcaField x2 y2 gx gy h.2
    simp only [bcaField, List.zipWith_cons_cons, shape, List.map_cons,
      List.cons.injEq, List.length_zipWith, h.1, min_self, true_and]
    simpa [bcaField, shape] using ih

/-- The crossing angle at any point lies in `[0, π]`. -/
theorem bcaPoint_mem_Icc (x2 y2 gx gy : ℝ) :
    0 ≤ bcaPoint x2 y2 gx gy ∧ bcaPoint x2 y2 gx gy ≤ Real.pi := by
  unfold bcaPoint atan2
  set t1 := Complex.arg ⟨gx, gy⟩ with ht1
  set t2 := Complex.arg ⟨gx - x2, gy - y2⟩ with ht2
  have h1l : -Real.pi < t1 := Complex.neg_pi_lt_arg _
  have h1u : t1 ≤ Real.pi := Complex.arg_le_pi _
  have h2l : -Real.pi < t2 := Complex.neg_pi_lt_arg _
  have h2u : t2 ≤ Real.pi := Complex.arg_le_pi _
  have habs : |t1 - t2| < 2 * Real.pi := by
    rw [abs_lt]; constructor <;> linarith
  by_cases h : Real.pi < |t1 - t2|
  · rw [if_pos h]; constructor <;> linarith
  · rw [if_neg h]
    push_neg at h
    exact ⟨abs_nonneg _, h⟩

/-- Swapping the two radars and re-deriving the planar frame (radar 2
becomes the origin, the grid offsets shift by `(-x2, -y2)`, radar 1
projects to `(-x2, -y2)`) leaves the per-point crossing angle
unchanged. -/
theorem bcaPoint_swap (x2 y2 gx gy : ℝ) :
    bcaPoint (-x2) (-y2) (gx - x2) (gy - y2) = bcaPoint x2 y2 gx gy := by
  have e1 : gx - x2 - -x2 = gx := by ring
  have e2 : gy - y2 - -y2 = gy := by ring
  simp only [bcaPoint, e1, e2]
  rw [abs_sub_comm]

/-- Evaluation `atan2 0 0 = 0`: the standard-library convention the spec fixes. -/
theorem atan2_zero_zero : atan2 0 0 = 0 := by
  have e : (⟨(0 : ℝ), (0 : ℝ)⟩ : ℂ) = 0 := by
    rw [← Complex.ofReal_zero, Complex.ofReal_def]
  rw [atan2, e, Complex.arg_zero]

/-- The absolute value of an `atan2` bearing never exceeds `π`. -/
theorem abs_atan2_le_pi (y x : ℝ) : |atan2 y x| ≤ Real.pi := by
  rw [atan2]
  exact abs_le.mpr ⟨(Complex.neg_pi_lt_arg _).le, Complex.arg_le_pi _⟩

/-- At a grid point coincident with radar 1 (the planar origin), the
crossing angle is the absolute bearing from radar 2. -/
theorem bcaPoint_at_origin (x2 y2 : ℝ) :
    bcaPoint x2 y2 0 0 = |atan2 (0 - y2) (0 - x2)| := by
  simp only [bcaPoint, atan2_zero_zero, zero_sub, abs_neg]
  rw [if_neg (not_lt.mpr (abs_atan2_le_pi _ _))]

/-- Row version of the radar-swap symmetry. -/
theorem bcaRow_swap (x2 y2 : ℝ) :
    ∀ (rx ry : List ℝ),
      List.zipWith (bcaPoint (-x2) (-y2)) (rx.map (fun t => t - x2))
        (ry.map (fun t => t - y2)) = List.zipWith (bcaPoint x2 y2) rx ry
  | [], _ => by simp
  | _ :: _, [] => by simp
  | a :: rx, b :: ry => by
    simp only [List.map_cons, List.zipWith_cons_cons]
    rw [bcaPoint_swap, bcaRow_swap x2 y2 rx ry]

/-- Field version of the radar-swap symmetry. -/
theorem bcaField_swap (x2 y2 : ℝ) :
    ∀ (gx gy : RArr2),
      bcaField (-x2) (-y2) (gx.map (List.map (fun t => t - x2)))
        (gy.map (List.map (fun t => t - y2))) = bcaField x2 y2 gx gy
  | [], gy => by cases gy <;> simp [bcaField]
  | _ :: _, [] => by simp [bcaField]
  | rx :: gx, ry :: gy => by
    simp only [List.map_cons, bcaField, List.zipWith_cons_cons,
      List.cons.injEq]
    exact ⟨bcaRow_swap x2 y2 rx ry, bcaField_swap x2 y2 gx gy⟩

/-- Shifting every entry of a 2-D array preserves its shape. -/
theorem shape_map_shift (f : ℝ → ℝ) (a : RArr2) :
    shape (a.map (List.map f)) = shape a := by
  simp [shape, List.map_map, Function.comp_def]

/-- Looking up an element of the BCA field. -/
theorem bcaField_get? (x2 y2 : ℝ) (gx gy : RArr2) (i j : ℕ) (a b : ℝ)
    (ha : (gx.get? i).bind (fun r => r.get? j) = some a)
    (hb : (gy.get? i).bind (fun r => r.get? j) = some b) :
    ((bcaField x2 y2 gx gy).get? i).bind (fun r => r.get? j) =
      some (bcaPoint x2 y2 a b) := by
  rcases Option.bind_eq_some.mp ha with ⟨rx, hrx, hja⟩
  rcases Option.bind_eq_some.mp hb with ⟨ry, hry, hjb⟩
  have hrow : (bcaField x2 y2 gx gy).get? i =
      some (List.zipWith (bcaPoint x2 y2) rx ry) :=
    (List.get?_zipWith_eq_some _ _ _ _ _).mpr ⟨rx, ry, hrx, hry, rfl⟩
  rw [hrow, Option.some_bind]
  exact (List.get?_zipWith_eq_some _ _ _ _ _).mpr ⟨a, b, hja, hjb, rfl⟩

/-! ## Part 1: claims about the BCA calculator -/

/-- Claim C5. With radar 1 at the planar origin, radar 2 projected to
`(10000, 0)` and a single grid point at `(5000, 0)`, the calculator
returns `π` at that point: the bearing from radar 1 is `0`, the bearing
from radar 2 is `atan2(0, -5000) = π`, and the normalization leaves `π`
unchanged. -/
theorem bca_collinear_returns_pi :
    get_bca 0 0 0 0 [[5000]] [[0]] (fun _ _ => (10000, 0)) =
      Except.ok [[Real.pi]] := by
  have hvalid : validLat (0 : ℝ) ∧ validLat (0 : ℝ) := by
    constructor <;> exact ⟨by norm_num, by norm_num⟩
  rw [get_bca, if_pos hvalid, if_pos (show shape [[(5000 : ℝ)]] = shape [[0]] from rfl)]
  have h1 : atan2 0 5000 = 0 := by
    have e : (⟨(5000 : ℝ), (0 : ℝ)⟩ : ℂ) = ((5000 : ℝ) : ℂ) := by
      rw [Complex.ofReal_def]
    rw [atan2, e]
    exact Complex.arg_ofReal_of_nonneg (by norm_num)
  have h2 : atan2 (0 - 0) (5000 - 10000) = Real.pi := by
    have e : (⟨(5000 : ℝ) - 10000, (0 : ℝ) - 0⟩ : ℂ) = ((-5000 : ℝ) : ℂ) := by
      rw [Complex.ofReal_def]
      simp only [Complex.mk.injEq]
      norm_num
    rw [atan2, e]
    exact Complex.arg_ofReal_of_neg (by norm_num)
  simp only [bcaField, List.zipWith_cons_cons, List.zipWith_nil_right,
    bcaPoint, h1, h2]
  rw [if_neg (by
    rw [zero_sub, abs_neg, abs_of_pos Real.pi_pos]
    exact lt_irrefl _)]
  rw [zero_sub, abs_neg, abs_of_pos Real.pi_pos]

/-- Claim C1. For every pair of radar positions and every grid point, after
projecting radar 2 to planar coordinates `(x2, y2)`, `get_bca` returns at
that point exactly the normalization of
`|atan2(gy, gx) - atan2(gy - y2, gx - x2)|` (values above `π` replaced by
`2π` minus the value), and the returned field has the same shape as
`grid_x`. -/
theorem bca_formula_and_shape
    (rad1_lon rad1_lat rad2_lon rad2_lat : ℝ) (grid_x grid_y : RArr2)
    (proj : ℝ → ℝ → ℝ × ℝ) (field : RArr2)
    (hok : get_bca rad1_lon rad1_lat rad2_lon rad2_lat grid_x grid_y proj =
      Except.ok field) :
    shape field = shape grid_x ∧
      ∀ (i j : ℕ) (gx gy : ℝ),
        (grid_x.get? i).bind (fun r => r.get? j) = some gx →
        (grid_y.get? i).bind (fun r => r.get? j) = some gy →
        (field.get? i).bind (fun r => r.get? j) =
          some (if Real.pi <
              |atan2 gy gx - atan2 (gy - (proj rad2_lon rad2_lat).2)
                (gx - (proj rad2_lon rad2_lat).1)| then
            2 * Real.pi -
              |atan2 gy gx - atan2 (gy - (proj rad2_lon rad2_lat).2)
                (gx - (proj rad2_lon rad2_lat).1)|
          else
            |atan2 gy gx - atan2 (gy - (proj rad2_lon rad2_lat).2)
              (gx - (proj rad2_lon rad2_lat).1)|) := by
  rw [get_bca] at hok
  by_cases hv : validLat rad1_lat ∧ validLat rad2_lat
  · rw [if_pos hv] at hok
    by_cases hs : shape grid_x = shape grid_y
    · rw [if_pos hs] at hok
      have hfield : field = bcaField (proj rad2_lon rad2_lat).1
          (proj rad2_lon rad2_lat).2 grid_x grid_y := (Except.ok.inj hok).symm
      subst hfield
      refine ⟨shape_bcaField _ _ _ _ hs, ?_⟩
      intro i j gx gy hx hy
      rw [bcaField_get? _ _ _ _ _ _ _ _ hx hy]
      rfl
    · rw [if_neg hs] at hok
      exact absurd hok (by simp)
  · rw [if_neg hv] at hok
    exact absurd hok (by simp)

/-- Witness for C1 at a concrete input: radar 2 projected to `(0, 0)`,
a single grid point at the origin, angle `0`. -/
theorem bca_formula_and_shape_witness :
    shape [[(0 : ℝ)]] = shape [[(0 : ℝ)]] ∧
      ∀ (i j : ℕ) (gx gy : ℝ),
        (([[(0 : ℝ)]] : RArr2).get? i).bind (fun r => r.get? j) = some gx →
        (([[(0 : ℝ)]] : RArr2).get? i).bind (fun r => r.get? j) = some gy →
        (([[(0 : ℝ)]] : RArr2).get? i).bind (fun r => r.get? j) =
          some (if Real.pi <
              |atan2 gy gx -
                atan2 (gy - ((fun _ _ : ℝ => ((0 : ℝ), (0 : ℝ))) 0 0).2)
                  (gx - ((fun _ _ : ℝ => ((0 : ℝ), (0 : ℝ))) 0 0).1)| then
            2 * Real.pi -
              |atan2 gy gx -
                atan2 (gy - ((fun _ _ : ℝ => ((0 : ℝ), (0 : ℝ))) 0 0).2)
                  (gx - ((fun _ _ : ℝ => ((0 : ℝ), (0 : ℝ))) 0 0).1)|
          else
            |atan2 gy gx -
              atan2 (gy - ((fun _ _ : ℝ => ((0 : ℝ), (0 : ℝ))) 0 0).2)
                (gx - ((fun _ _ : ℝ => ((0 : ℝ), (0 : ℝ))) 0 0).1)|) := by
  refine bca_formula_and_shape 0 0 0 0 [[0]] [[0]]
    (fun _ _ => ((0 : ℝ), (0 : ℝ))) [[0]] ?_
  rw [get_bca, if_pos ⟨⟨by norm_num, by norm_num⟩, ⟨by norm_num, by norm_num⟩⟩,
    if_pos rfl]
  have h : bcaPoint 0 0 0 0 = 0 := by
    rw [bcaPoint_at_origin]
    simp [atan2_zero_zero]
  simp [bcaField, h]

/-- Claim C2. For all valid inputs (the model's coordinates are finite
reals; latitudes checked by the calculator itself), every element of the
returned angle field lies in `[0, π]`. -/
theorem bca_range
    (rad1_lon rad1_lat rad2_lon rad2_lat : ℝ) (grid_x grid_y : RArr2)
    (proj : ℝ → ℝ → ℝ × ℝ) (field : RArr2)
    (hok : get_bca rad1_lon rad1_lat rad2_lon rad2_lat grid_x grid_y proj =
      Except.ok field) :
    ∀ row ∈ field, ∀ a ∈ row, 0 ≤ a ∧ a ≤ Real.pi := by
  rw [get_bca] at hok
  by_cases hv : validLat rad1_lat ∧ validLat rad2_lat
  · rw [if_pos hv] at hok
    by_cases hs : shape grid_x = shape grid_y
    · rw [if_pos hs] at hok
      have hfield : field = bcaField (proj rad2_lon rad2_lat).1
          (proj rad2_lon rad2_lat).2 grid_x grid_y := (Except.ok.inj hok).symm
      subst hfield
      intro row hrow a ha
      rcases mem_zipWith hrow with ⟨rx, ry, hr⟩
      subst hr
      rcases mem_zipWith ha with ⟨gx, gy, hgxy⟩
      subst hgxy
      exact bcaPoint_mem_Icc _ _ _ _
    · rw [if_neg hs] at hok
      exact absurd hok (by simp)
  · rw [if_neg hv] at hok
    exact absurd hok (by simp)

/-- Witness for C2: radar 2 projected to `(1, 0)` and a grid point at
the origin; the single output value is `π`, inside `[0, π]`. -/
theorem bca_range_witness : 0 ≤ Real.pi ∧ Real.pi ≤ Real.pi := by
  have hok : get_bca 0 0 0 0 [[0]] [[0]] (fun _ _ => ((1 : ℝ), (0 : ℝ))) =
      Except.ok [[Real.pi]] := by
    rw [get_bca, if_pos ⟨⟨by norm_num, by norm_num⟩, ⟨by norm_num, by norm_num⟩⟩,
      if_pos rfl]
    have h : bcaPoint 1 0 0 0 = Real.pi := by
      rw [bcaPoint_at_origin]
      have e : (⟨(0 : ℝ) - 1, (0 : ℝ) - 0⟩ : ℂ) = ((-1 : ℝ) : ℂ) := by
        rw [Complex.ofReal_def]
        simp only [Complex.mk.injEq]
        norm_num
      rw [atan2, e, Complex.arg_ofReal_of_neg (by norm_num)]
      exact abs_of_pos Real.pi_pos
    simp [bcaField, h]
  exact bca_range 0 0 0 0 [[0]] [[0]] (fun _ _ => ((1 : ℝ), (0 : ℝ)))
    [[Real.pi]] hok [Real.pi] (by simp) Real.pi (by simp)

/-- Claim C3. Swapping radar 1 and radar 2, with the planar frame re-derived
correspondingly (the grid offsets become relative to radar 2, and radar 1
projects to `(-x2, -y2)` in the new frame), leaves the output of the
calculator unchanged — including, when the latitudes are invalid or the
shapes mismatch, the error produced. -/
theorem bca_swap_symmetric
    (rad1_lon rad1_lat rad2_lon rad2_lat : ℝ) (grid_x grid_y : RArr2)
    (proj proj' : ℝ → ℝ → ℝ × ℝ) (x2 y2 : ℝ)
    (hp : proj rad2_lon rad2_lat = (x2, y2))
    (hp' : proj' rad1_lon rad1_lat = (-x2, -y2)) :
    get_bca rad2_lon rad2_lat rad1_lon rad1_lat
        (grid_x.map (List.map (fun t => t - x2)))
        (grid_y.map (List.map (fun t => t - y2))) proj' =
      get_bca rad1_lon rad1_lat rad2_lon rad2_lat grid_x grid_y proj := by
  rw [get_bca, get_bca]
  by_cases hv : validLat rad1_lat ∧ validLat rad2_lat
  · rw [if_pos hv, if_pos (And.intro hv.2 hv.1)]
    rw [shape_map_shift, shape_map_shift]
    by_cases hs : shape grid_x = shape grid_y
    · rw [if_pos hs, if_pos hs, hp, hp']
      exact congrArg Except.ok (bcaField_swap x2 y2 grid_x grid_y)
    · rw [if_neg hs, if_neg hs]
  · rw [if_neg hv, if_neg (fun h => hv (And.intro h.2 h.1))]

/-- Witness for C3 at a concrete input: radar 2 at planar `(1, 0)`. -/
theorem bca_swap_symmetric_witness :
    get_bca 0 0 0 0
        (([[(0 : ℝ)]] : RArr2).map (List.map (fun t => t - 1)))
        (([[(0 : ℝ)]] : RArr2).map (List.map (fun t => t - 0)))
        (fun _ _ => ((-1 : ℝ), (-0 : ℝ))) =
      get_bca 0 0 0 0 [[(0 : ℝ)]] [[(0 : ℝ)]]
        (fun _ _ => ((1 : ℝ), (0 : ℝ))) :=
  bca_swap_symmetric 0 0 0 0 [[0]] [[0]]
    (fun _ _ => ((1 : ℝ), (0 : ℝ))) (fun _ _ => ((-1 : ℝ), (-0 : ℝ)))
    1 0 rfl rfl

/-- Claim C4, counterexample. The claim says a grid point coincident with a
radar's projected position yields angle `0`.  With radar 2 projected to
`(1, 0)` and the single grid point at radar 1's position `(0, 0)`, the
calculator returns `π ≠ 0` at that point: `theta1 = atan2(0,0) = 0` but
`theta2 = atan2(0 - 0, 0 - 1) = π`, so the normalized angle is `π`. -/
theorem bca_coincident_counterexample :
    get_bca 0 0 0 0 [[0]] [[0]] (fun _ _ => ((1 : ℝ), (0 : ℝ))) =
        Except.ok [[Real.pi]] ∧ Real.pi ≠ 0 := by
  constructor
  · rw [get_bca, if_pos ⟨⟨by norm_num, by norm_num⟩, ⟨by norm_num, by norm_num⟩⟩,
      if_pos rfl]
    have h : bcaPoint 1 0 0 0 = Real.pi := by
      rw [bcaPoint_at_origin]
      have e : (⟨(0 : ℝ) - 1, (0 : ℝ) - 0⟩ : ℂ) = ((-1 : ℝ) : ℂ) := by
        rw [Complex.ofReal_def]
        simp only [Complex.mk.injEq]
        norm_num
      rw [atan2, e, Complex.arg_ofReal_of_neg (by norm_num)]
      exact abs_of_pos Real.pi_pos
    simp [bcaField, h]
  · exact Real.pi_ne_zero

/-- Claim C4, amended. A grid point coincident with radar 1's projected
position `(0, 0)` is not an error and yields no NaN: by the
`atan2(0,0) = 0` convention the bearing from radar 1 is `0`, and the
returned angle is the absolute bearing from radar 2,
`|atan2(0 - y2, 0 - x2)|` — which is `0` when the two radars' projected
positions coincide with the grid point, but not in general. -/
theorem bca_coincident_amended
    (rad1_lon rad1_lat rad2_lon rad2_lat : ℝ) (proj : ℝ → ℝ → ℝ × ℝ)
    (x2 y2 : ℝ) (hv1 : validLat rad1_lat) (hv2 : validLat rad2_lat)
    (hp : proj rad2_lon rad2_lat = (x2, y2)) :
    get_bca rad1_lon rad1_lat rad2_lon rad2_lat [[0]] [[0]] proj =
        Except.ok [[|atan2 (0 - y2) (0 - x2)|]] ∧
      (x2 = 0 → y2 = 0 →
        get_bca rad1_lon rad1_lat rad2_lon rad2_lat [[0]] [[0]] proj =
          Except.ok [[0]]) := by
  have hmain : get_bca rad1_lon rad1_lat rad2_lon rad2_lat [[0]] [[0]] proj =
      Except.ok [[|atan2 (0 - y2) (0 - x2)|]] := by
    rw [get_bca, if_pos ⟨hv1, hv2⟩, if_pos rfl, hp]
    simp only [bcaField, List.zipWith_cons_cons, List.zipWith_nil_right]
    rw [bcaPoint_at_origin]
  refine ⟨hmain, fun hx hy => ?_⟩
  rw [hmain, hx, hy]
  norm_num [atan2_zero_zero]

/-- Witness for the amended C4: both radars projected to the origin and
the grid point there; the returned angle is `0`. -/
theorem bca_coincident_amended_witness :
    get_bca 0 0 0 0 [[0]] [[0]] (fun _ _ => ((0 : ℝ), (0 : ℝ))) =
        Except.ok [[|atan2 (0 - 0) (0 - 0)|]] ∧
      ((0 : ℝ) = 0 → (0 : ℝ) = 0 →
        get_bca 0 0 0 0 [[0]] [[0]] (fun _ _ => ((0 : ℝ), (0 : ℝ))) =
          Except.ok [[0]]) :=
  bca_coincident_amended 0 0 0 0 (fun _ _ => ((0 : ℝ), (0 : ℝ))) 0 0
    ⟨by norm_num, by norm_num⟩ ⟨by norm_num, by norm_num⟩ rfl

/-- Claim C6. The calculator fails with `InvalidInputError` whenever a radar
latitude lies outside `[-90, 90]`, and with `ShapeMismatchError` whenever
`grid_x` and `grid_y` have different shapes; in the `Except` model the
error is the whole result, so no partial field is produced.  (Non-finite
coordinates do not exist in the real-number model: every `ℝ` is finite,
so that branch of the claim is vacuous here.) -/
theorem bca_validation_errors
    (rad1_lon rad1_lat rad2_lon rad2_lat : ℝ) (grid_x grid_y : RArr2)
    (proj : ℝ → ℝ → ℝ × ℝ) :
    (¬ (validLat rad1_lat ∧ validLat rad2_lat) →
      get_bca rad1_lon rad1_lat rad2_lon rad2_lat grid_x grid_y proj =
        Except.error BCAError.InvalidInputError) ∧
    (validLat rad1_lat → validLat rad2_lat → shape grid_x ≠ shape grid_y →
      get_bca rad1_lon rad1_lat rad2_lon rad2_lat grid_x grid_y proj =
        Except.error BCAError.ShapeMismatchError) := by
  constructor
  · intro hbad
    rw [get_bca, if_neg hbad]
  · intro hv1 hv2 hs
    rw [get_bca, if_pos ⟨hv1, hv2⟩, if_neg hs]

/-- Witness for C6: latitude `91` triggers `InvalidInputError`, and a
`(10, 10)`-shaped `grid_x` with a `(5, 5)`-shaped `grid_y` triggers
`ShapeMismatchError`. -/
theorem bca_validation_errors_witness :
    get_bca 0 91 0 0 [[0]] [[0]] (fun _ _ => ((0 : ℝ), (0 : ℝ))) =
        Except.error BCAError.InvalidInputError ∧
      get_bca 0 0 0 0 (List.replicate 10 (List.replicate 10 (0 : ℝ)))
          (List.replicate 5 (List.replicate 5 (0 : ℝ)))
          (fun _ _ => ((0 : ℝ), (0 : ℝ))) =
        Except.error BCAError.ShapeMismatchError := by
  constructor
  · exact (bca_validation_errors 0 91 0 0 [[0]] [[0]]
      (fun _ _ => ((0 : ℝ), (0 : ℝ)))).1
      (by intro h; exact absurd h.1.2 (by norm_num [validLat]))
  · refine (bca_validation_errors 0 0 0 0 _ _
      (fun _ _ => ((0 : ℝ), (0 : ℝ)))).2
      ⟨by norm_num, by norm_num⟩ ⟨by norm_num, by norm_num⟩ ?_
    simp only [shape, List.map_replicate, List.length_replicate]
    decide

/-- Claim C7. The calculator is modelled as a mathematical function of its
explicit arguments: two calls on identical inputs return identical
fields.  The model has no mutable state, no hidden inputs and no effects,
matching the spec's purity guarantee; I/O and in-place mutation are not
expressible against it. -/
theorem bca_deterministic
    (rad1_lon rad1_lat rad2_lon rad2_lat : ℝ) (grid_x grid_y : RArr2)
    (proj : ℝ → ℝ → ℝ × ℝ) :
    get_bca rad1_lon rad1_lat rad2_lon rad2_lat grid_x grid_y proj =
      get_bca rad1_lon rad1_lat rad2_lon rad2_lat grid_x grid_y proj := rfl

/-- Claim C8. In `plot_horiz_xsection_streamlines` and
`plot_horiz_xsection_streamlines_map`, whenever `v_vel_contours` is not
`None` the v-field contour call is issued with `levels=u_vel_contours`
rather than `levels=v_vel_contours`: the whole output trace is
independent of the *content* of the requested v levels (first two
conjuncts), and every successful trace contains a contour command whose
levels argument is `u_vel_contours` (last two conjuncts) — in
particular, with `u_vel_contours = none` and any non-empty `some vcs`,
the v contours are drawn with levels `none`. -/
theorem v_contours_levels_from_u
    (getBca : ℚ → ℚ → ℚ → ℚ → Arr2 → Arr2 → List (String × ℚ) → Arr2)
    (Grids : List PyGrid) (background_field : String) (level : ℤ)
    (cmap : String) (vmin vmax : Option ℚ)
    (u_vel_contours w_vel_contours : Option (List ℚ))
    (u_field v_field w_field : String)
    (show_lobes title_flag axes_labels_flag colorbar_flag : Bool)
    (bg_grid_no : ℤ) (thickness_divisor contour_alpha : ℚ)
    (coastlines gridlines : Bool) (vcs vcs' : List ℚ) :
    (plot_horiz_xsection_streamlines getBca Grids background_field level
        cmap vmin vmax u_vel_contours (some vcs) w_vel_contours u_field
        v_field w_field show_lobes title_flag axes_labels_flag
        colorbar_flag bg_grid_no thickness_divisor contour_alpha =
      plot_horiz_xsection_streamlines getBca Grids background_field level
        cmap vmin vmax u_vel_contours (some vcs') w_vel_contours u_field
        v_field w_field show_lobes title_flag axes_labels_flag
        colorbar_flag bg_grid_no thickness_divisor contour_alpha) ∧
    (plot_horiz_xsection_streamlines_map getBca Grids background_field
        level cmap vmin vmax u_vel_contours (some vcs) w_vel_contours
        u_field v_field w_field show_lobes title_flag axes_labels_flag
        colorbar_flag bg_grid_no contour_alpha coastlines gridlines =
      plot_horiz_xsection_streamlines_map getBca Grids background_field
        level cmap vmin vmax u_vel_contours (some vcs') w_vel_contours
        u_field v_field w_field show_lobes title_flag axes_labels_flag
        colorbar_flag bg_grid_no contour_alpha coastlines gridlines) ∧
    (∀ tr, plot_horiz_xsection_streamlines getBca Grids background_field
        level cmap vmin vmax u_vel_contours (some vcs) w_vel_contours
        u_field v_field w_field show_lobes title_flag axes_labels_flag
        colorbar_flag bg_grid_no thickness_divisor contour_alpha =
        Except.ok tr →
      ∃ X Y D, PlotCmd.contour X Y D u_vel_contours (some 2)
        (some contour_alpha) none none ∈ tr) ∧
    (∀ tr, plot_horiz_xsection_streamlines_map getBca Grids
        background_field level cmap vmin vmax u_vel_contours (some vcs)
        w_vel_contours u_field v_field w_field show_lobes title_flag
        axes_labels_flag colorbar_flag bg_grid_no contour_alpha coastlines
        gridlines = Except.ok tr →
      ∃ X Y D, PlotCmd.contour X Y D u_vel_contours (some 2)
        (some contour_alpha) (some 2) none ∈ tr) := by
  refine ⟨rfl, rfl, ?_, ?_⟩
  · intro tr htr
    unfold plot_horiz_xsection_streamlines at htr
    obtain ⟨g, hg, htr⟩ := exbind_ok htr
    obtain ⟨fbg, hfbg, htr⟩ := exbind_ok htr
    obtain ⟨vmn, hvmn, htr⟩ := exbind_ok htr
    obtain ⟨vmx, hvmx, htr⟩ := exbind_ok htr
    obtain ⟨g0, hg0, htr⟩ := exbind_ok htr
    obtain ⟨dx, hdx, htr⟩ := exbind_ok htr
    obtain ⟨dy, hdy, htr⟩ := exbind_ok htr
    obtain ⟨fu, hfu, htr⟩ := exbind_ok htr
    obtain ⟨fv, hfv, htr⟩ := exbind_ok htr
    obtain ⟨fw, hfw, htr⟩ := exbind_ok htr
    obtain ⟨meshX, hmx, htr⟩ := exbind_ok htr
    obtain ⟨meshY, hmy, htr⟩ := exbind_ok htr
    obtain ⟨meshC, hmc, htr⟩ := exbind_ok htr
    obtain ⟨uL, hul, htr⟩ := exbind_ok htr
    obtain ⟨vL, hvl, htr⟩ := exbind_ok htr
    obtain ⟨cb, hcb, htr⟩ := exbind_ok htr
    obtain ⟨wc, hwc, htr⟩ := exbind_ok htr
    obtain ⟨fu2, hfu2, htr⟩ := exbind_ok htr
    obtain ⟨mbq, hmbq, htr⟩ := exbind_ok htr
    obtain ⟨mxq, hmxq, htr⟩ := exbind_ok htr
    obtain ⟨lc, hlc, htr⟩ := exbind_ok htr
    obtain ⟨tc, htc, htr⟩ := exbind_ok htr
    obtain ⟨xlo, hxlo, htr⟩ := exbind_ok htr
    obtain ⟨xhi, hxhi, htr⟩ := exbind_ok htr
    obtain ⟨ylo, hylo, htr⟩ := exbind_ok htr
    obtain ⟨yhi, hyhi, htr⟩ := exbind_ok htr
    have htr' := expure_ok htr
    subst htr'
    refine ⟨meshX, meshY, maFilled vL 0, ?_⟩
    simp [List.mem_append]
  · intro tr htr
    unfold plot_horiz_xsection_streamlines_map at htr
    obtain ⟨gbg, hgbg, htr⟩ := exbind_ok htr
    obtain ⟨vmn, hvmn, htr⟩ := exbind_ok htr
    obtain ⟨vmx, hvmx, htr⟩ := exbind_ok htr
    obtain ⟨g0, hg0, htr⟩ := exbind_ok htr
    obtain ⟨glat, hglat, htr⟩ := exbind_ok htr
    obtain ⟨glon, hglon, htr⟩ := exbind_ok htr
    obtain ⟨dx, hdx, htr⟩ := exbind_ok htr
    obtain ⟨dy, hdy, htr⟩ := exbind_ok htr
    obtain ⟨fu, hfu, htr⟩ := exbind_ok htr
    obtain ⟨fv, hfv, htr⟩ := exbind_ok htr
    obtain ⟨fw, hfw, htr⟩ := exbind_ok htr
    obtain ⟨meshC, hmc, htr⟩ := exbind_ok htr
    obtain ⟨uL, hul, htr⟩ := exbind_ok htr
    obtain ⟨vL, hvl, htr⟩ := exbind_ok htr
    obtain ⟨cb, hcb, htr⟩ := exbind_ok htr
    obtain ⟨wc, hwc, htr⟩ := exbind_ok htr
    obtain ⟨fu2, hfu2, htr⟩ := exbind_ok htr
    obtain ⟨mbq, hmbq, htr⟩ := exbind_ok htr
    obtain ⟨mxq, hmxq, htr⟩ := exbind_ok htr
    obtain ⟨lc, hlc, htr⟩ := exbind_ok htr
    obtain ⟨tc, htc, htr⟩ := exbind_ok htr
    obtain ⟨lonlo, hlonlo, htr⟩ := exbind_ok htr
    obtain ⟨lonhi, hlonhi, htr⟩ := exbind_ok htr
    obtain ⟨latlo, hlatlo, htr⟩ := exbind_ok htr
    obtain ⟨lathi, hlathi, htr⟩ := exbind_ok htr
    have htr' := expure_ok htr
    subst htr'
    refine ⟨glon, glat, maFilled vL 0, ?_⟩
    simp [List.mem_append]

/-- Witness for C8 on the concrete grid `gW`: both horizontal functions
succeed with `v_vel_contours = some [1]` and `u_vel_contours = none`,
and their traces contain a contour drawn with levels `none`. -/
theorem v_contours_levels_from_u_witness :
    (∃ X Y D, PlotCmd.contour X Y D none (some 2) (some (1/2)) none none
      ∈ trF1) ∧
    (∃ X Y D, PlotCmd.contour X Y D none (some 2) (some (1/2)) (some 2)
      none ∈ trMap) :=
  ⟨(v_contours_levels_from_u getBcaW [gW] "bg" 0 "c" none none none none
      "u" "v" "w" false false false false 0 7 (1/2) false false [1]
      [1]).2.2.1 trF1 (by with_unfolding_all rfl),
   (v_contours_levels_from_u getBcaW [gW] "bg" 0 "c" none none none none
      "u" "v" "w" false false false false 0 7 (1/2) false false [1]
      [1]).2.2.2 trMap (by with_unfolding_all rfl)⟩

/-- Claim C9. Both horizontal functions read the `'min_bca'` metadata of
`Grids[0].fields[u_field]` unconditionally, before `show_lobes` is
consulted: when that key is absent (and the lookups leading to it
succeed), the call fails for *every* value of `show_lobes` and of every
other argument — no trace is ever produced. -/
theorem min_bca_required_even_without_lobes
    (getBca : ℚ → ℚ → ℚ → ℚ → Arr2 → Arr2 → List (String × ℚ) → Arr2)
    (Grids : List PyGrid) (background_field : String) (level : ℤ)
    (cmap : String) (vmin vmax : Option ℚ)
    (u_vel_contours v_vel_contours w_vel_contours : Option (List ℚ))
    (u_field v_field w_field : String)
    (show_lobes title_flag axes_labels_flag colorbar_flag : Bool)
    (bg_grid_no : ℤ) (thickness_divisor contour_alpha : ℚ)
    (coastlines gridlines : Bool) (g0 : PyGrid) (fu : PyField)
    (h0 : pyGet Grids 0 = Except.ok g0)
    (hfu : dictGet g0.fields u_field = Except.ok fu)
    (hmin : fu.min_bca = none) :
    (∀ tr, plot_horiz_xsection_streamlines getBca Grids background_field
      level cmap vmin vmax u_vel_contours v_vel_contours w_vel_contours
      u_field v_field w_field show_lobes title_flag axes_labels_flag
      colorbar_flag bg_grid_no thickness_divisor contour_alpha ≠
      Except.ok tr) ∧
    (∀ tr, plot_horiz_xsection_streamlines_map getBca Grids
      background_field level cmap vmin vmax u_vel_contours v_vel_contours
      w_vel_contours u_field v_field w_field show_lobes title_flag
      axes_labels_flag colorbar_flag bg_grid_no contour_alpha coastlines
      gridlines ≠ Except.ok tr) := by
  constructor
  · intro tr htr
    unfold plot_horiz_xsection_streamlines at htr
    obtain ⟨g, hg, htr⟩ := exbind_ok htr
    obtain ⟨fbg, hfbg, htr⟩ := exbind_ok htr
    obtain ⟨vmn, hvmn, htr⟩ := exbind_ok htr
    obtain ⟨vmx, hvmx, htr⟩ := exbind_ok htr
    obtain ⟨g0', hg0, htr⟩ := exbind_ok htr
    obtain ⟨dx, hdx, htr⟩ := exbind_ok htr
    obtain ⟨dy, hdy, htr⟩ := exbind_ok htr
    obtain ⟨fu1, hfu1, htr⟩ := exbind_ok htr
    obtain ⟨fv, hfv, htr⟩ := exbind_ok htr
    obtain ⟨fw, hfw, htr⟩ := exbind_ok htr
    obtain ⟨meshX, hmx, htr⟩ := exbind_ok htr
    obtain ⟨meshY, hmy, htr⟩ := exbind_ok htr
    obtain ⟨meshC, hmc, htr⟩ := exbind_ok htr
    obtain ⟨uL, hul, htr⟩ := exbind_ok htr
    obtain ⟨vL, hvl, htr⟩ := exbind_ok htr
    obtain ⟨cb, hcb, htr⟩ := exbind_ok htr
    obtain ⟨wc, hwc, htr⟩ := exbind_ok htr
    obtain ⟨fu2, hfu2, htr⟩ := exbind_ok htr
    obtain ⟨mbq, hmbq, htr⟩ := exbind_ok htr
    rw [h0] at hg0
    injection hg0 with e
    subst e
    rw [hfu] at hfu2
    injection hfu2 with e2
    subst e2
    rw [hmin] at hmbq
    simp [metaGet] at hmbq
  · intro tr htr
    unfold plot_horiz_xsection_streamlines_map at htr
    obtain ⟨gbg, hgbg, htr⟩ := exbind_ok htr
    obtain ⟨vmn, hvmn, htr⟩ := exbind_ok htr
    obtain ⟨vmx, hvmx, htr⟩ := exbind_ok htr
    obtain ⟨g0', hg0, htr⟩ := exbind_ok htr
    obtain ⟨glat, hglat, htr⟩ := exbind_ok htr
    obtain ⟨glon, hglon, htr⟩ := exbind_ok htr
    obtain ⟨dx, hdx, htr⟩ := exbind_ok htr
    obtain ⟨dy, hdy, htr⟩ := exbind_ok htr
    obtain ⟨fu1, hfu1, htr⟩ := exbind_ok htr
    obtain ⟨fv, hfv, htr⟩ := exbind_ok htr
    obtain ⟨fw, hfw, htr⟩ := exbind_ok htr
    obtain ⟨meshC, hmc, htr⟩ := exbind_ok htr
    obtain ⟨uL, hul, htr⟩ := exbind_ok htr
    obtain ⟨vL, hvl, htr⟩ := exbind_ok htr
    obtain ⟨cb, hcb, htr⟩ := exbind_ok htr
    obtain ⟨wc, hwc, htr⟩ := exbind_ok htr
    obtain ⟨fu2, hfu2, htr⟩ := exbind_ok htr
    obtain ⟨mbq, hmbq, htr⟩ := exbind_ok htr
    rw [h0] at hg0
    injection hg0 with e
    subst e
    rw [hfu] at hfu2
    injection hfu2 with e2
    subst e2
    rw [hmin] at hmbq
    simp [metaGet] at hmbq

/-- Witness for C9 on the concrete grid `gW9` (its `"u"` field lacks
`'min_bca'`): with `show_lobes = false`, neither horizontal function
returns a trace. -/
theorem min_bca_required_even_without_lobes_witness :
    (∀ tr, plot_horiz_xsection_streamlines getBcaW [gW9] "bg" 0 "c" none
      none none none none "u" "v" "w" false false false false 0 7 (1/2) ≠
      Except.ok tr) ∧
    (∀ tr, plot_horiz_xsection_streamlines_map getBcaW [gW9] "bg" 0 "c"
      none none none none none "u" "v" "w" false false false false 0
      (1/2) false false ≠ Except.ok tr) :=
  min_bca_required_even_without_lobes getBcaW [gW9] "bg" 0 "c" none none
    none none none "u" "v" "w" false false false false 0 7 (1/2) false
    false gW9 ⟨[[[1, 1], [1, 1]]], "U", "m/s", none, none⟩
    (by with_unfolding_all rfl) (by with_unfolding_all rfl) rfl

/-- Claim C10. In all four plotting functions the `vmin`/`vmax` parameters
are defaulted from the background field but never reach the
`pcolormesh` call: two successful invocations differing only in `vmin`
and `vmax` produce identical traces — the background mesh command (and
every other command) is independent of them. -/
theorem vmin_vmax_never_reach_pcolormesh
    (getBca : ℚ → ℚ → ℚ → ℚ → Arr2 → Arr2 → List (String × ℚ) → Arr2)
    (Grids : List PyGrid) (background_field : String) (level : ℤ)
    (cmap : String)
    (u_vel_contours v_vel_contours w_vel_contours : Option (List ℚ))
    (u_field v_field w_field : String)
    (show_lobes title_flag axes_labels_flag colorbar_flag : Bool)
    (bg_grid_no : ℤ) (thickness_divisor contour_alpha : ℚ)
    (coastlines gridlines : Bool) (vmin vmax vmin' vmax' : Option ℚ) :
    (∀ tr tr',
      plot_horiz_xsection_streamlines getBca Grids background_field level
        cmap vmin vmax u_vel_contours v_vel_contours w_vel_contours
        u_field v_field w_field show_lobes title_flag axes_labels_flag
        colorbar_flag bg_grid_no thickness_divisor contour_alpha =
        Except.ok tr →
      plot_horiz_xsection_streamlines getBca Grids background_field level
        cmap vmin' vmax' u_vel_contours v_vel_contours w_vel_contours
        u_field v_field w_field show_lobes title_flag axes_labels_flag
        colorbar_flag bg_grid_no thickness_divisor contour_alpha =
        Except.ok tr' → tr = tr') ∧
    (∀ tr tr',
      plot_horiz_xsection_streamlines_map getBca Grids background_field
        level cmap vmin vmax u_vel_contours v_vel_contours w_vel_contours
        u_field v_field w_field show_lobes title_flag axes_labels_flag
        colorbar_flag bg_grid_no contour_alpha coastlines gridlines =
        Except.ok tr →
      plot_horiz_xsection_streamlines_map getBca Grids background_field
        level cmap vmin' vmax' u_vel_contours v_vel_contours
        w_vel_contours u_field v_field w_field show_lobes title_flag
        axes_labels_flag colorbar_flag bg_grid_no contour_alpha coastlines
        gridlines = Except.ok tr' → tr = tr') ∧
    (∀ tr tr',
      plot_xz_xsection_streamlines Grids background_field level cmap vmin
        vmax u_vel_contours v_vel_contours w_vel_contours u_field v_field
        w_field title_flag axes_labels_flag colorbar_flag bg_grid_no
        thickness_divisor contour_alpha = Except.ok tr →
      plot_xz_xsection_streamlines Grids background_field level cmap vmin'
        vmax' u_vel_contours v_vel_contours w_vel_contours u_field v_field
        w_field title_flag axes_labels_flag colorbar_flag bg_grid_no
        thickness_divisor contour_alpha = Except.ok tr' → tr = tr') ∧
    (∀ tr tr',
      plot_yz_xsection_streamlines Grids background_field level cmap vmin
        vmax u_vel_contours v_vel_contours w_vel_contours u_field v_field
        w_field title_flag axes_labels_flag colorbar_flag bg_grid_no
        thickness_divisor contour_alpha = Except.ok tr →
      plot_yz_xsection_streamlines Grids background_field level cmap vmin'
        vmax' u_vel_contours v_vel_contours w_vel_contours u_field v_field
        w_field title_flag axes_labels_flag colorbar_flag bg_grid_no
        thickness_divisor contour_alpha = Except.ok tr' → tr = tr') := by
  refine ⟨?_, ?_, ?_, ?_⟩
  · intro tr tr' h h'
    unfold plot_horiz_xsection_streamlines at h h'
    obtain ⟨g, hg, h⟩ := exbind_ok h
    obtain ⟨g2, hg2, h'⟩ := exbind_ok h'
    rw [hg] at hg2
    injection hg2 with e
    subst e
    obtain ⟨fbg, hfbg, h⟩ := exbind_ok h
    obtain ⟨fbg2, hfbg2, h'⟩ := exbind_ok h'
    rw [hfbg] at hfbg2
    injection hfbg2 with e2
    subst e2
    obtain ⟨vmn, hvmn, h⟩ := exbind_ok h
    obtain ⟨vmn2, hvmn2, h'⟩ := exbind_ok h'
    obtain ⟨vmx, hvmx, h⟩ := exbind_ok h
    obtain ⟨vmx2, hvmx2, h'⟩ := exbind_ok h'
    rw [h] at h'
    exact Except.ok.inj h'
  · intro tr tr' h h'
    unfold plot_horiz_xsection_streamlines_map at h h'
    obtain ⟨g, hg, h⟩ := exbind_ok h
    obtain ⟨g2, hg2, h'⟩ := exbind_ok h'
    rw [hg] at hg2
    injection hg2 with e
    subst e
    obtain ⟨vmn, hvmn, h⟩ := exbind_ok h
    obtain ⟨vmn2, hvmn2, h'⟩ := exbind_ok h'
    obtain ⟨vmx, hvmx, h⟩ := exbind_ok h
    obtain ⟨vmx2, hvmx2, h'⟩ := exbind_ok h'
    rw [h] at h'
    exact Except.ok.inj h'
  · intro tr tr' h h'
    unfold plot_xz_xsection_streamlines at h h'
    obtain ⟨g, hg, h⟩ := exbind_ok h
    obtain ⟨g2, hg2, h'⟩ := exbind_ok h'
    rw [hg] at hg2
    injection hg2 with e
    subst e
    obtain ⟨fbg, hfbg, h⟩ := exbind_ok h
    obtain ⟨fbg2, hfbg2, h'⟩ := exbind_ok h'
    rw [hfbg] at hfbg2
    injection hfbg2 with e2
    subst e2
    obtain ⟨vmn, hvmn, h⟩ := exbind_ok h
    obtain ⟨vmn2, hvmn2, h'⟩ := exbind_ok h'
    obtain ⟨vmx, hvmx, h⟩ := exbind_ok h
    obtain ⟨vmx2, hvmx2, h'⟩ := exbind_ok h'
    rw [h] at h'
    exact Except.ok.inj h'
  · intro tr tr' h h'
    unfold plot_yz_xsection_streamlines at h h'
    obtain ⟨g, hg, h⟩ := exbind_ok h
    obtain ⟨g2, hg2, h'⟩ := exbind_ok h'
    rw [hg] at hg2
    injection hg2 with e
    subst e
    obtain ⟨fbg, hfbg, h⟩ := exbind_ok h
    obtain ⟨fbg2, hfbg2, h'⟩ := exbind_ok h'
    rw [hfbg] at hfbg2
    injection hfbg2 with e2
    subst e2
    obtain ⟨vmn, hvmn, h⟩ := exbind_ok h
    obtain ⟨vmn2, hvmn2, h'⟩ := exbind_ok h'
    obtain ⟨vmx, hvmx, h⟩ := exbind_ok h
    obtain ⟨vmx2, hvmx2, h'⟩ := exbind_ok h'
    rw [h] at h'
    exact Except.ok.inj h'

/-- Witness for C10 on the concrete grid `gW`: each of the four
functions succeeds both with `vmin = vmax = none` and with
`vmin = some 1, vmax = some 2`, and the traces coincide. -/
theorem vmin_vmax_never_reach_pcolormesh_witness :
    trF1p = trF1p ∧ trMapP = trMapP ∧ trXZ = trXZ ∧ trYZ = trYZ :=
  ⟨(vmin_vmax_never_reach_pcolormesh getBcaW [gW] "bg" 0 "c" none none
      none "u" "v" "w" false false false false 0 7 (1/2) false false none
      none (some 1) (some 2)).1 trF1p trF1p (by with_unfolding_all rfl)
      (by with_unfolding_all rfl),
   (vmin_vmax_never_reach_pcolormesh getBcaW [gW] "bg" 0 "c" none none
      none "u" "v" "w" false false false false 0 7 (1/2) false false none
      none (some 1) (some 2)).2.1 trMapP trMapP (by with_unfolding_all rfl)
      (by with_unfolding_all rfl),
   (vmin_vmax_never_reach_pcolormesh getBcaW [gW] "bg" 0 "c" none none
      none "u" "v" "w" false false false false 0 7 (1/2) false false none
      none (some 1) (some 2)).2.2.1 trXZ trXZ (by with_unfolding_all rfl)
      (by with_unfolding_all rfl),
   (vmin_vmax_never_reach_pcolormesh getBcaW [gW] "bg" 0 "c" none none
      none "u" "v" "w" false false false false 0 7 (1/2) false false none
      none (some 1) (some 2)).2.2.2 trYZ trYZ (by with_unfolding_all rfl)
      (by with_unfolding_all rfl)⟩
